import Mathlib

/-!
Verification of the kagazkit core: `src/kagazkit/core/validators.py` and
`src/kagazkit/core/actions.py`, shallowly embedded over an explicit
filesystem model.  Bytes are `Nat` (0..255), a filesystem maps normalized
path strings to file records, and the external PDF library (PyPDF2) is
modelled from the spec's interface section: a PDF file determines a list of
pages, each carrying a rotation value.
-/

/-- Bytes as natural numbers 0..255. -/
abbrev Byte := Nat

/-- Model of a page of a PDF document, as seen through the external PDF
library interface: an identity (to track page order) and the accumulated
rotation value (the /Rotate attribute that `page.rotate` adds to). -/
structure Page where
  pid : Nat
  rotation : Int
deriving DecidableEq, Repr

/-- Model of one filesystem entry.  `isFile` is false for directories;
`readErr` is `some e` when opening/reading the file raises an `OSError`
with message `e`; `content` is the raw byte content; `pages` is the page
list the external PDF library parses from this file (meaningful only for
PDF files; modelled from the spec's external-interface section: page-indexed
read access to an existing document). -/
structure FileRec where
  isFile : Bool
  content : List Byte
  readErr : Option String
  pages : List Page
deriving DecidableEq, Repr

/-- A filesystem: normalized path string to entry (`none` = does not exist). -/
abbrev FS := String → Option FileRec

/-! ### Model of Python `pathlib` (POSIX flavour)

`Path(p)` normalizes the path string: splits on `/`, drops empty and `.`
segments, keeps a leading `/` root.  `suffix`, `stem`, `name`, `parent` and
the `/` join operator follow CPython's `pathlib` semantics. -/

/-- Split a character list on `/` (keeping empty segments, like
`str.split('/')`). -/
def splitOnSlash : List Char → List (List Char)
  | [] => [[]]
  | c :: cs =>
      if c = '/' then [] :: splitOnSlash cs
      else
        match splitOnSlash cs with
        | [] => [[c]]
        | g :: gs => (c :: g) :: gs

/-- Whether the path string is absolute (starts with `/`). -/
def isAbs : List Char → Bool
  | '/' :: _ => true
  | _ => false

/-- The components of a path: split on `/`, dropping empty and `.` parts. -/
def pathParts (cs : List Char) : List (List Char) :=
  (splitOnSlash cs).filter (fun g => decide (g ≠ [] ∧ g ≠ ['.']))

/-- `str(Path(s))`: the normalized form of a path string. -/
def pyPathNorm (s : String) : String :=
  if isAbs s.toList then
    String.mk ('/' :: List.intercalate ['/'] (pathParts s.toList))
  else if pathParts s.toList = [] then "."
  else String.mk (List.intercalate ['/'] (pathParts s.toList))

/-- `str(Path(s).parent)`: drop the last component. -/
def pyParent (s : String) : String :=
  if isAbs s.toList then
    String.mk ('/' :: List.intercalate ['/'] (pathParts s.toList).dropLast)
  else if (pathParts s.toList).dropLast = [] then "."
  else String.mk (List.intercalate ['/'] (pathParts s.toList).dropLast)

/-- `Path(s).name`: the final component (empty for `/` and `.`). -/
def pyName (s : String) : List Char :=
  ((pathParts s.toList).getLast?).getD []

/-- Index of the last `.` in a name, if any. -/
def lastDotIdx : List Char → Option Nat
  | [] => none
  | c :: cs =>
      match lastDotIdx cs with
      | some j => some (j + 1)
      | none => if c = '.' then some 0 else none

/-- `Path.suffix` on a name: `name[i:]` for the last dot index `i` when
`0 < i < len(name) - 1`, else empty. -/
def pySuffix (name : List Char) : List Char :=
  match lastDotIdx name with
  | none => []
  | some i => if 0 < i ∧ i < name.length - 1 then name.drop i else []

/-- `Path.stem` on a name: the name with its suffix removed. -/
def pyStem (name : List Char) : List Char :=
  name.take (name.length - (pySuffix name).length)

/-- `str(Path(dir) / name)` for a plain relative file name. -/
def pyJoin (dir : String) (name : String) : String :=
  pyPathNorm (dir ++ "/" ++ name)

/-- `path.suffix.lower().lstrip('.')` of `validate_image`: the extension of
the path, lowercased, leading dots stripped. -/
def pyExtLower (path : String) : String :=
  String.mk (((pySuffix (pyName path)).map Char.toLower).dropWhile (fun c => c = '.'))

/-- `str.upper()` over ASCII. -/
def strUpper (s : String) : String :=
  String.mk (s.toList.map Char.toUpper)

/-! ### Validator (`validators.py`) -/

/-- `FileValidationError`: custom exception for file validation failures. -/
structure FileValidationError where
  msg : String
deriving DecidableEq, Repr

/-- `bytes.startswith`: `bytesStartsWith l pre` is true when `pre` is a
prefix of `l`. -/
def bytesStartsWith : List Byte → List Byte → Bool
  | _, [] => true
  | [], _ :: _ => false
  | a :: as, b :: bs => a == b && bytesStartsWith as bs

/-- `Validator.MAGIC_NUMBERS`: magic numbers for file type verification. -/
def MAGIC_NUMBERS (t : String) : Option (List Byte) :=
  if t = "pdf" then some [0x25, 0x50, 0x44, 0x46]
  else if t = "png" then some [0x89, 0x50, 0x4E, 0x47, 0x0D, 0x0A, 0x1A, 0x0A]
  else if t = "jpg" then some [0xFF, 0xD8, 0xFF]
  else if t = "jpeg" then some [0xFF, 0xD8, 0xFF]
  else none

/-- The PDF magic number `%PDF`. -/
def pdfMagic : List Byte := (MAGIC_NUMBERS "pdf").getD []

/-- `Validator.validate_file`: the path must exist and be a regular file. -/
def validate_file (fs : FS) (file_path : String) : Except FileValidationError Bool :=
  match fs (pyPathNorm file_path) with
  | none => .error ⟨"File not found: " ++ file_path⟩
  | some r =>
      if r.isFile then .ok true
      else .error ⟨"Path is not a file: " ++ file_path⟩

/-- `Validator.validate_pdf`: `validate_file`, then read the first 4 bytes
and check them against the `%PDF` magic number; an `OSError` while reading
is wrapped into a `FileValidationError`. -/
def validate_pdf (fs : FS) (file_path : String) : Except FileValidationError Bool :=
  match validate_file fs file_path with
  | .error e => .error e
  | .ok _ =>
      match fs (pyPathNorm file_path) with
      | none => .error ⟨"Error reading file " ++ file_path⟩
      | some r =>
          match r.readErr with
          | some e => .error ⟨"Error reading file " ++ file_path ++ ": " ++ e⟩
          | none =>
              if bytesStartsWith (r.content.take 4) pdfMagic then .ok true
              else .error ⟨"Invalid PDF file header: " ++ file_path⟩

/-- `Validator.validate_image`: `validate_file`, then the extension
(lowercased, leading dot stripped) must be png/jpg/jpeg, and a
signature-length prefix of the content must match the magic number for that
extension; an `OSError` while reading is wrapped. -/
def validate_image (fs : FS) (file_path : String) : Except FileValidationError Bool :=
  match validate_file fs file_path with
  | .error e => .error e
  | .ok _ =>
      if pyExtLower (pyPathNorm file_path) = "png" ∨ pyExtLower (pyPathNorm file_path) = "jpg" ∨
          pyExtLower (pyPathNorm file_path) = "jpeg" then
        match MAGIC_NUMBERS (pyExtLower (pyPathNorm file_path)) with
        | none => .error ⟨"Unsupported image type: " ++ pyExtLower (pyPathNorm file_path)⟩
        | some magic =>
            match fs (pyPathNorm file_path) with
            | none => .error ⟨"Error reading file " ++ file_path⟩
            | some r =>
                match r.readErr with
                | some e => .error ⟨"Error reading file " ++ file_path ++ ": " ++ e⟩
                | none =>
                    if bytesStartsWith (r.content.take magic.length) magic then .ok true
                    else .error ⟨"Invalid " ++ strUpper (pyExtLower (pyPathNorm file_path)) ++
                        " file header: " ++ file_path⟩
      else .error ⟨"Unsupported image extension: " ++ pyExtLower (pyPathNorm file_path)⟩

/-- The per-path validation step of `validate_paths`: `validate_pdf` when
`file_type` is `'pdf'`, `validate_image` when it is `'image'`, and no
validation otherwise (the `if`/`elif` has no `else`).  `Path(p)` is applied
inside the validators, which normalize their argument. -/
def stepFor (fs : FS) (file_type : String) (p : String) : Except FileValidationError Bool :=
  if file_type = "pdf" then validate_pdf fs p
  else if file_type = "image" then validate_image fs p
  else .ok true

/-- `Validator.validate_paths`: validate each path in order with the
validator selected by `file_type`, stopping at the first failure, and
return the `Path` objects (normalized path strings) in input order. -/
def validate_paths (fs : FS) (paths : List String) (file_type : String) :
    Except FileValidationError (List String) :=
  match paths with
  | [] => .ok []
  | p :: rest =>
      match stepFor fs file_type p with
      | .error e => .error e
      | .ok _ =>
          match validate_paths fs rest file_type with
          | .error e => .error e
          | .ok v => .ok (pyPathNorm p :: v)

/-! ### PDFManager (`actions.py`)

Each operation first validates its inputs, wrapping a `FileValidationError`
into a `PDFActionError` with a `"Validation failed: "` prefix, then calls
the external libraries.  Filesystem writes and directory creation are
recorded as an explicit effect trace.  The external PDF/image library calls
are modelled from the spec's external-interface section (append-based
merge, page-indexed read, assembly from pages, per-page rotation by an
arbitrary degree, serialization); on validated inputs they succeed. -/

/-- `PDFActionError`: custom exception for action failures. -/
structure PDFActionError where
  msg : String
deriving DecidableEq, Repr

/-- Filesystem effects an operation performs, in order. -/
inductive Eff where
  | mkdirParents (dir : String)
  | writePdf (path : String) (doc : List Page)
  | writeImagesPdf (path : String) (srcs : List String)
deriving DecidableEq, Repr

/-- Modelled from the spec: `PdfReader(path).pages`, page-indexed read
access to the document stored at a path. -/
def pagesOf (fs : FS) (path : String) : List Page :=
  match fs path with
  | some r => r.pages
  | none => []

/-- `PDFManager.merge_pdfs`: validate all paths as PDFs, append each
validated document in input order, create the output's parent directory,
and write the merged document. -/
def merge_pdfs (fs : FS) (file_paths : List String) (output_path : String) :
    Except PDFActionError String × List Eff :=
  match validate_paths fs file_paths "pdf" with
  | .error e => (.error ⟨"Validation failed: " ++ e.msg⟩, [])
  | .ok validated =>
      (.ok (pyPathNorm output_path),
       [Eff.mkdirParents (pyParent (pyPathNorm output_path)),
        Eff.writePdf (pyPathNorm output_path) ((validated.map (fun q => pagesOf fs q)).flatten)])

/-- `PDFManager.convert_images_to_pdf`: validate all paths as images, fail
with "No valid images provided." when the validated list is empty, else
create the output's parent directory and save the images as one PDF. -/
def convert_images_to_pdf (fs : FS) (image_paths : List String) (output_path : String) :
    Except PDFActionError String × List Eff :=
  match validate_paths fs image_paths "image" with
  | .error e => (.error ⟨"Validation failed: " ++ e.msg⟩, [])
  | .ok validated =>
      if validated = [] then (.error ⟨"No valid images provided."⟩, [])
      else
        (.ok (pyPathNorm output_path),
         [Eff.mkdirParents (pyParent (pyPathNorm output_path)),
          Eff.writeImagesPdf (pyPathNorm output_path) validated])

/-- The output file name of `split_pdf` for 1-based page number `n`:
`out_dir / f"{base_name}_page_{n}.pdf"`. -/
def splitName (base : List Char) (outDir : String) (n : Nat) : String :=
  pyJoin outDir (String.mk base ++ "_page_" ++ toString n ++ ".pdf")

/-- The paths `split_pdf` generates when enumerating the pages from index
`i` on (each page `i` is written to the file for page number `i + 1`). -/
def splitNames (base : List Char) (outDir : String) : Nat → List Page → List String
  | _, [] => []
  | i, _ :: rest => splitName base outDir (i + 1) :: splitNames base outDir (i + 1) rest

/-- The write effects of the `split_pdf` loop: one single-page document per
page, in page order. -/
def splitWrites (base : List Char) (outDir : String) : Nat → List Page → List Eff
  | _, [] => []
  | i, pg :: rest =>
      Eff.writePdf (splitName base outDir (i + 1)) [pg] :: splitWrites base outDir (i + 1) rest

/-- `PDFManager.split_pdf`: validate the source as PDF, create the output
directory, then write each page as a single-page document named
`{stem}_page_{n}.pdf` (1-based), returning the generated paths in order. -/
def split_pdf (fs : FS) (file_path : String) (output_dir : String) :
    Except PDFActionError (List String) × List Eff :=
  match validate_pdf fs file_path with
  | .error e => (.error ⟨"Validation failed: " ++ e.msg⟩, [])
  | .ok _ =>
      (.ok (splitNames (pyStem (pyName (pyPathNorm file_path))) (pyPathNorm output_dir) 0
          (pagesOf fs (pyPathNorm file_path))),
       Eff.mkdirParents (pyPathNorm output_dir) ::
         splitWrites (pyStem (pyName (pyPathNorm file_path))) (pyPathNorm output_dir) 0
           (pagesOf fs (pyPathNorm file_path)))

/-- The per-page loop of `rotate_pdf`: `page.rotate(rotation)` adds the
angle to each page's rotation value, and the pages are added to the writer
in the original order. -/
def rotatePages : List Page → Int → List Page
  | [], _ => []
  | pg :: rest, a => { pg with rotation := pg.rotation + a } :: rotatePages rest a

/-- `PDFManager.rotate_pdf`: validate the source as PDF, rotate every page
by `rotation` degrees, and write the result to the output path.  Note: no
parent-directory creation here, unlike the other three operations. -/
def rotate_pdf (fs : FS) (file_path : String) (output_path : String) (rotation : Int) :
    Except PDFActionError String × List Eff :=
  match validate_pdf fs file_path with
  | .error e => (.error ⟨"Validation failed: " ++ e.msg⟩, [])
  | .ok _ =>
      (.ok (pyPathNorm output_path),
       [Eff.writePdf (pyPathNorm output_path)
          (rotatePages (pagesOf fs (pyPathNorm file_path)) rotation)])

/-! ### Concrete filesystem used by the witnesses -/

/-- A two-page PDF file whose content starts with `%PDF`. -/
def aRec : FileRec := ⟨true, [0x25, 0x50, 0x44, 0x46, 0x2D, 0x31], none, [⟨0, 0⟩, ⟨1, 0⟩]⟩

/-- A file with a `.pdf` name whose content does not start with `%PDF`. -/
def badRec : FileRec := ⟨true, [0x4E, 0x4F, 0x54], none, []⟩

/-- A PNG file whose content starts with the PNG signature. -/
def pngRec : FileRec := ⟨true, [0x89, 0x50, 0x4E, 0x47, 0x0D, 0x0A, 0x1A, 0x0A, 0x00], none, []⟩

/-- A file that exists but raises an `OSError` when read. -/
def lockedRec : FileRec := ⟨true, [0x25, 0x50, 0x44, 0x46], some "busy", []⟩

/-- A directory entry. -/
def dirRec : FileRec := ⟨false, [], none, []⟩

/-- A small concrete filesystem for the witnesses. -/
def demoFS : FS := fun p =>
  if p = "a.pdf" then some aRec
  else if p = "bad.pdf" then some badRec
  else if p = "img.png" then some pngRec
  else if p = "locked.pdf" then some lockedRec
  else if p = "somedir" then some dirRec
  else none


/-! ### General lemmas about the signature check -/

/-- `bytesStartsWith l pre` holds exactly when the first `pre.length`
elements of `l` are `pre`. -/
theorem bytesStartsWith_iff_take (pre : List Byte) :
    ∀ l, bytesStartsWith l pre = true ↔ l.take pre.length = pre := by
  induction pre with
  | nil => intro l; simp [bytesStartsWith]
  | cons b bs ih =>
      intro l
      cases l with
      | nil => simp [bytesStartsWith]
      | cons a as =>
          simp [bytesStartsWith, ih, List.take_succ_cons, Bool.and_eq_true, beq_iff_eq,
            List.cons.injEq]

/-- Reading exactly `sig.length` bytes and checking `startswith(sig)` is
the same as the first `sig.length` bytes being `sig`. -/
theorem bSW_take_iff (sig c : List Byte) (n : Nat) (hn : sig.length = n) :
    bytesStartsWith (c.take n) sig = true ↔ c.take n = sig := by
  subst hn
  rw [bytesStartsWith_iff_take, List.take_take, min_self]

/-- Claim C10: `validate_file`, `validate_pdf` and `validate_image` never
return `False`: each either returns `True` or raises a
`FileValidationError`, so a `False` result is unreachable despite the bool
return type. -/
theorem validators_never_return_false (fs : FS) (p : String) :
    (validate_file fs p = .ok true ∨ ∃ e, validate_file fs p = .error e) ∧
    (validate_pdf fs p = .ok true ∨ ∃ e, validate_pdf fs p = .error e) ∧
    (validate_image fs p = .ok true ∨ ∃ e, validate_image fs p = .error e) := by
  refine ⟨?_, ?_, ?_⟩
  · cases hfs : fs (pyPathNorm p) with
    | none => simp [validate_file, hfs]
    | some r =>
        by_cases h : r.isFile = true
        · simp [validate_file, hfs, h]
        · simp [validate_file, hfs, h]
  · cases hvf : validate_file fs p with
    | error e => simp [validate_pdf, hvf]
    | ok b =>
        cases hfs : fs (pyPathNorm p) with
        | none => simp [validate_pdf, hvf, hfs]
        | some r =>
            cases hre : r.readErr with
            | some e => simp [validate_pdf, hvf, hfs, hre]
            | none =>
                by_cases h : bytesStartsWith (r.content.take 4) pdfMagic = true
                · simp [validate_pdf, hvf, hfs, hre, h]
                · simp [validate_pdf, hvf, hfs, hre, h]
  · cases hvf : validate_file fs p with
    | error e => simp [validate_image, hvf]
    | ok b =>
        by_cases hor : pyExtLower (pyPathNorm p) = "png" ∨ pyExtLower (pyPathNorm p) = "jpg" ∨
            pyExtLower (pyPathNorm p) = "jpeg"
        · cases hm : MAGIC_NUMBERS (pyExtLower (pyPathNorm p)) with
          | none => simp [validate_image, hvf, hor, hm]
          | some magic =>
              cases hfs : fs (pyPathNorm p) with
              | none => simp [validate_image, hvf, hor, hm, hfs]
              | some r =>
                  cases hre : r.readErr with
                  | some e => simp [validate_image, hvf, hor, hm, hfs, hre]
                  | none =>
                      by_cases h : bytesStartsWith (r.content.take magic.length) magic = true
                      · simp [validate_image, hvf, hor, hm, hfs, hre, h]
                      · simp [validate_image, hvf, hor, hm, hfs, hre, h]
        · simp [validate_image, hvf, hor]

/-- Claim C1: for a path naming an existing regular file, `validate_pdf`
succeeds exactly when the first 4 bytes of the file are `%PDF` (bytes
beyond those 4 are irrelevant, because only `content.take 4` is
consulted); otherwise it raises a `FileValidationError`, and an I/O error
while reading the header is also wrapped into a `FileValidationError`. -/
theorem validate_pdf_spec (fs : FS) (p : String) (r : FileRec)
    (hex : fs (pyPathNorm p) = some r) (hf : r.isFile = true) :
    (r.readErr = none →
      ((validate_pdf fs p = .ok true ↔ r.content.take 4 = [0x25, 0x50, 0x44, 0x46]) ∧
       (r.content.take 4 ≠ [0x25, 0x50, 0x44, 0x46] → ∃ m, validate_pdf fs p = .error m))) ∧
    (∀ e, r.readErr = some e → ∃ m, validate_pdf fs p = .error m) := by
  have hvf : validate_file fs p = .ok true := by
    simp [validate_file, hex, hf]
  constructor
  · intro hre
    have hbody : validate_pdf fs p =
        if bytesStartsWith (r.content.take 4) pdfMagic then .ok true
        else .error ⟨"Invalid PDF file header: " ++ p⟩ := by
      simp only [validate_pdf, hvf, hex, hre]
    have hiff : bytesStartsWith (r.content.take 4) pdfMagic = true ↔
        r.content.take 4 = [0x25, 0x50, 0x44, 0x46] :=
      bSW_take_iff pdfMagic r.content 4 rfl
    by_cases hc : r.content.take 4 = [0x25, 0x50, 0x44, 0x46]
    · rw [hbody, if_pos (hiff.mpr hc)]
      exact ⟨by simp [hc], fun h => absurd hc h⟩
    · rw [hbody, if_neg (fun h => hc (hiff.mp h))]
      refine ⟨⟨(fun h => nomatch h), fun h => absurd h hc⟩, fun _ => ⟨_, rfl⟩⟩
  · intro e hre
    refine ⟨⟨"Error reading file " ++ p ++ ": " ++ e⟩, ?_⟩
    simp only [validate_pdf, hvf, hex, hre]

/-- Witness for C1, at a file whose header is `%PDF-1`, one whose header is
not, and one whose read raises an I/O error. -/
theorem validate_pdf_spec_witness :
    validate_pdf demoFS "a.pdf" = .ok true ∧
    (∃ m, validate_pdf demoFS "bad.pdf" = .error m) ∧
    (∃ m, validate_pdf demoFS "locked.pdf" = .error m) := by
  refine ⟨?_, ?_, ?_⟩
  · exact (((validate_pdf_spec demoFS "a.pdf" aRec rfl rfl).1 rfl).1).mpr rfl
  · exact ((validate_pdf_spec demoFS "bad.pdf" badRec rfl rfl).1 rfl).2 (by decide)
  · exact (validate_pdf_spec demoFS "locked.pdf" lockedRec rfl rfl).2 "busy" rfl

/-- Reduction of `validate_image` to its signature check, in the
supported-extension, readable-file case. -/
theorem validate_image_sig (fs : FS) (p : String) (r : FileRec) (ext : String) (sig : List Byte)
    (hvf : validate_file fs p = .ok true)
    (hex : fs (pyPathNorm p) = some r) (hre : r.readErr = none)
    (hE : pyExtLower (pyPathNorm p) = ext)
    (hor : ext = "png" ∨ ext = "jpg" ∨ ext = "jpeg")
    (hm : MAGIC_NUMBERS ext = some sig) :
    validate_image fs p =
      if bytesStartsWith (r.content.take sig.length) sig then .ok true
      else .error ⟨"Invalid " ++ strUpper ext ++ " file header: " ++ p⟩ := by
  simp only [validate_image, hvf, hE, hor, hm, hex, hre, if_true, ite_true]

/-- Reduction of `validate_image` in the unsupported-extension case. -/
theorem validate_image_unsupported (fs : FS) (p : String)
    (hvf : validate_file fs p = .ok true)
    (hor : ¬ (pyExtLower (pyPathNorm p) = "png" ∨ pyExtLower (pyPathNorm p) = "jpg" ∨
        pyExtLower (pyPathNorm p) = "jpeg")) :
    validate_image fs p =
      .error ⟨"Unsupported image extension: " ++ pyExtLower (pyPathNorm p)⟩ := by
  simp only [validate_image, hvf, hor, if_false, ite_false]

/-- Claim C2: for an existing regular file (whose read raises no I/O
error), `validate_image` succeeds exactly when the extension (lowercased,
leading dot stripped) is png/jpg/jpeg and the file's leading bytes match
that extension's signature (8 bytes for png, 3 bytes for jpg/jpeg);
otherwise it raises a `FileValidationError`. -/
theorem validate_image_spec (fs : FS) (p : String) (r : FileRec)
    (hex : fs (pyPathNorm p) = some r) (hf : r.isFile = true) (hre : r.readErr = none) :
    (validate_image fs p = .ok true ↔
      ((pyExtLower (pyPathNorm p) = "png" ∧
          r.content.take 8 = [0x89, 0x50, 0x4E, 0x47, 0x0D, 0x0A, 0x1A, 0x0A]) ∨
       ((pyExtLower (pyPathNorm p) = "jpg" ∨ pyExtLower (pyPathNorm p) = "jpeg") ∧
          r.content.take 3 = [0xFF, 0xD8, 0xFF]))) ∧
    (¬ ((pyExtLower (pyPathNorm p) = "png" ∧
          r.content.take 8 = [0x89, 0x50, 0x4E, 0x47, 0x0D, 0x0A, 0x1A, 0x0A]) ∨
        ((pyExtLower (pyPathNorm p) = "jpg" ∨ pyExtLower (pyPathNorm p) = "jpeg") ∧
          r.content.take 3 = [0xFF, 0xD8, 0xFF])) →
      ∃ m, validate_image fs p = .error m) := by
  have hvf : validate_file fs p = .ok true := by simp [validate_file, hex, hf]
  by_cases h1 : pyExtLower (pyPathNorm p) = "png"
  · have hb := validate_image_sig fs p r "png" [0x89, 0x50, 0x4E, 0x47, 0x0D, 0x0A, 0x1A, 0x0A]
      hvf hex hre h1 (Or.inl rfl) rfl
    rw [show ([0x89, 0x50, 0x4E, 0x47, 0x0D, 0x0A, 0x1A, 0x0A] : List Byte).length = 8 from rfl]
      at hb
    have hiff := bSW_take_iff [0x89, 0x50, 0x4E, 0x47, 0x0D, 0x0A, 0x1A, 0x0A] r.content 8 rfl
    by_cases hc : r.content.take 8 = [0x89, 0x50, 0x4E, 0x47, 0x0D, 0x0A, 0x1A, 0x0A]
    · rw [hb, if_pos (hiff.mpr hc)]
      exact ⟨by simp [h1, hc], fun hn => absurd (Or.inl ⟨h1, hc⟩) hn⟩
    · rw [hb, if_neg (fun h => hc (hiff.mp h))]
      refine ⟨⟨(fun h => nomatch h), fun h => ?_⟩, fun _ => ⟨_, rfl⟩⟩
      rcases h with ⟨_, h2⟩ | ⟨hj, _⟩
      · exact absurd h2 hc
      · rcases hj with hj | hj
        · rw [h1] at hj; exact absurd hj (by decide)
        · rw [h1] at hj; exact absurd hj (by decide)
  · by_cases h2 : pyExtLower (pyPathNorm p) = "jpg"
    · have hb := validate_image_sig fs p r "jpg" [0xFF, 0xD8, 0xFF]
        hvf hex hre h2 (Or.inr (Or.inl rfl)) rfl
      rw [show ([0xFF, 0xD8, 0xFF] : List Byte).length = 3 from rfl] at hb
      have hiff := bSW_take_iff [0xFF, 0xD8, 0xFF] r.content 3 rfl
      by_cases hc : r.content.take 3 = [0xFF, 0xD8, 0xFF]
      · rw [hb, if_pos (hiff.mpr hc)]
        exact ⟨by simp [h2, hc], fun hn => absurd (Or.inr ⟨Or.inl h2, hc⟩) hn⟩
      · rw [hb, if_neg (fun h => hc (hiff.mp h))]
        refine ⟨⟨(fun h => nomatch h), fun h => ?_⟩, fun _ => ⟨_, rfl⟩⟩
        rcases h with ⟨hp, _⟩ | ⟨_, h3⟩
        · exact absurd hp h1
        · exact absurd h3 hc
    · by_cases h3 : pyExtLower (pyPathNorm p) = "jpeg"
      · have hb := validate_image_sig fs p r "jpeg" [0xFF, 0xD8, 0xFF]
          hvf hex hre h3 (Or.inr (Or.inr rfl)) rfl
        rw [show ([0xFF, 0xD8, 0xFF] : List Byte).length = 3 from rfl] at hb
        have hiff := bSW_take_iff [0xFF, 0xD8, 0xFF] r.content 3 rfl
        by_cases hc : r.content.take 3 = [0xFF, 0xD8, 0xFF]
        · rw [hb, if_pos (hiff.mpr hc)]
          exact ⟨by simp [h3, hc], fun hn => absurd (Or.inr ⟨Or.inr h3, hc⟩) hn⟩
        · rw [hb, if_neg (fun h => hc (hiff.mp h))]
          refine ⟨⟨(fun h => nomatch h), fun h => ?_⟩, fun _ => ⟨_, rfl⟩⟩
          rcases h with ⟨hp, _⟩ | ⟨_, hq⟩
          · exact absurd hp h1
          · exact absurd hq hc
      · have hor : ¬ (pyExtLower (pyPathNorm p) = "png" ∨ pyExtLower (pyPathNorm p) = "jpg" ∨
            pyExtLower (pyPathNorm p) = "jpeg") := fun h => h.elim h1 (fun h' => h'.elim h2 h3)
        rw [validate_image_unsupported fs p hvf hor]
        refine ⟨⟨(fun h => nomatch h), fun h => ?_⟩, fun _ => ⟨_, rfl⟩⟩
        rcases h with ⟨hp, _⟩ | ⟨hj, _⟩
        · exact absurd hp h1
        · exact absurd hj (fun h' => h'.elim h2 h3)

/-- Witness for C2, at a PNG with a correct signature and a file with an
unsupported extension. -/
theorem validate_image_spec_witness :
    validate_image demoFS "img.png" = .ok true ∧
    (∃ m, validate_image demoFS "a.pdf" = .error m) := by
  constructor
  · exact ((validate_image_spec demoFS "img.png" pngRec rfl rfl rfl).1).mpr
      (Or.inl ⟨rfl, rfl⟩)
  · exact (validate_image_spec demoFS "a.pdf" aRec rfl rfl rfl).2 (by decide)

/-- When every path passes its per-path validation step, `validate_paths`
returns all paths (as normalized `Path` values) in input order. -/
theorem validate_paths_all_ok (fs : FS) (t : String) :
    ∀ ps : List String, (∀ p ∈ ps, stepFor fs t p = .ok true) →
      validate_paths fs ps t = .ok (ps.map pyPathNorm) := by
  intro ps
  induction ps with
  | nil => intro _; rfl
  | cons p rest ih =>
      intro h
      have hp := h p (List.mem_cons_self p rest)
      have hr := ih (fun q hq => h q (List.mem_cons_of_mem _ hq))
      simp only [validate_paths, hp, hr, List.map_cons]

/-- When every path before `p` passes and `p` fails, `validate_paths`
raises `p`'s error, whatever comes after `p`. -/
theorem validate_paths_first_err (fs : FS) (t : String) (p : String) (post : List String)
    (e : FileValidationError) :
    ∀ pre : List String, (∀ q ∈ pre, stepFor fs t q = .ok true) →
      stepFor fs t p = .error e →
      validate_paths fs (pre ++ p :: post) t = .error e := by
  intro pre
  induction pre with
  | nil => intro _ hp; simp only [List.nil_append, validate_paths, hp]
  | cons q rest ih =>
      intro h hp
      have hq := h q (List.mem_cons_self q rest)
      have hr := ih (fun x hx => h x (List.mem_cons_of_mem _ hx)) hp
      simp only [List.cons_append, validate_paths, hq, List.append_eq, hr]

/-- Claim C7: for `file_type` pdf or image, `validate_paths` applies the
corresponding validator to each path in input order, raises on the first
invalid path regardless of what follows it, and when all paths pass it
returns all of them as normalized `Path` values in the original order. -/
theorem validate_paths_spec (fs : FS) :
    ((∀ ps : List String, (∀ p ∈ ps, validate_pdf fs p = .ok true) →
        validate_paths fs ps "pdf" = .ok (ps.map pyPathNorm)) ∧
     (∀ (pre : List String) (p : String) (post : List String) (e : FileValidationError),
        (∀ q ∈ pre, validate_pdf fs q = .ok true) → validate_pdf fs p = .error e →
        validate_paths fs (pre ++ p :: post) "pdf" = .error e)) ∧
    ((∀ ps : List String, (∀ p ∈ ps, validate_image fs p = .ok true) →
        validate_paths fs ps "image" = .ok (ps.map pyPathNorm)) ∧
     (∀ (pre : List String) (p : String) (post : List String) (e : FileValidationError),
        (∀ q ∈ pre, validate_image fs q = .ok true) → validate_image fs p = .error e →
        validate_paths fs (pre ++ p :: post) "image" = .error e)) := by
  have hpdf : ∀ q, stepFor fs "pdf" q = validate_pdf fs q := fun q => rfl
  have himg : ∀ q, stepFor fs "image" q = validate_image fs q := fun q => rfl
  refine ⟨⟨?_, ?_⟩, ?_, ?_⟩
  · intro ps h
    exact validate_paths_all_ok fs "pdf" ps (fun p hp => (hpdf p).trans (h p hp))
  · intro pre p post e h hp
    exact validate_paths_first_err fs "pdf" p post e pre
      (fun q hq => (hpdf q).trans (h q hq)) ((hpdf p).trans hp)
  · intro ps h
    exact validate_paths_all_ok fs "image" ps (fun p hp => (himg p).trans (h p hp))
  · intro pre p post e h hp
    exact validate_paths_first_err fs "image" p post e pre
      (fun q hq => (himg q).trans (h q hq)) ((himg p).trans hp)

/-- Witness for C7: two valid PDFs pass in order; an invalid path after a
valid one raises the invalid path's error with the path after it unread. -/
theorem validate_paths_spec_witness :
    validate_paths demoFS ["a.pdf", "a.pdf"] "pdf" = .ok ["a.pdf", "a.pdf"] ∧
    validate_paths demoFS ["a.pdf", "bad.pdf", "ghost.pdf"] "pdf" =
      .error ⟨"Invalid PDF file header: bad.pdf"⟩ := by
  constructor
  · refine ((validate_paths_spec demoFS).1.1 ["a.pdf", "a.pdf"] ?_)
    intro p hp
    rcases List.mem_cons.mp hp with h | hp'
    · rw [h]; rfl
    · rcases List.mem_cons.mp hp' with h | h
      · rw [h]; rfl
      · exact absurd h (List.not_mem_nil p)
  · exact (validate_paths_spec demoFS).1.2 ["a.pdf"] "bad.pdf" ["ghost.pdf"]
      ⟨"Invalid PDF file header: bad.pdf"⟩
      (fun q hq => by
        rcases List.mem_cons.mp hq with h | h
        · rw [h]; rfl
        · exact absurd h (List.not_mem_nil q))
      rfl

/-- Claim C9: for any `file_type` other than pdf and image (for example the
typo `"pdfs"`), `validate_paths` performs no validation and returns every
path as a `Path` value without raising, whatever the filesystem holds. -/
theorem validate_paths_unknown_type (fs : FS) (ps : List String) (t : String)
    (h1 : t ≠ "pdf") (h2 : t ≠ "image") :
    validate_paths fs ps t = .ok (ps.map pyPathNorm) := by
  refine validate_paths_all_ok fs t ps (fun p _ => ?_)
  simp only [stepFor, if_neg h1, if_neg h2]

/-- Witness for C9: with `file_type = "pdfs"`, a nonexistent path and a
non-PDF file both pass through unvalidated. -/
theorem validate_paths_unknown_type_witness :
    validate_paths demoFS ["ghost.pdf", "bad.pdf"] "pdfs" = .ok ["ghost.pdf", "bad.pdf"] :=
  validate_paths_unknown_type demoFS ["ghost.pdf", "bad.pdf"] "pdfs" (by decide) (by decide)

/-- Claim C3: whenever input validation fails, each of the four operations
catches the `FileValidationError` at its boundary and raises a
`PDFActionError` whose message starts with "Validation failed: " (by type,
no `FileValidationError` ever escapes an operation). -/
theorem operations_wrap_validation (fs : FS) :
    (∀ (ps : List String) (out : String) (e : FileValidationError),
        validate_paths fs ps "pdf" = .error e →
        (merge_pdfs fs ps out).1 = .error ⟨"Validation failed: " ++ e.msg⟩) ∧
    (∀ (ps : List String) (out : String) (e : FileValidationError),
        validate_paths fs ps "image" = .error e →
        (convert_images_to_pdf fs ps out).1 = .error ⟨"Validation failed: " ++ e.msg⟩) ∧
    (∀ (p d : String) (e : FileValidationError),
        validate_pdf fs p = .error e →
        (split_pdf fs p d).1 = .error ⟨"Validation failed: " ++ e.msg⟩) ∧
    (∀ (p o : String) (a : Int) (e : FileValidationError),
        validate_pdf fs p = .error e →
        (rotate_pdf fs p o a).1 = .error ⟨"Validation failed: " ++ e.msg⟩) := by
  refine ⟨?_, ?_, ?_, ?_⟩
  · intro ps out e h
    simp only [merge_pdfs, h]
  · intro ps out e h
    simp only [convert_images_to_pdf, h]
  · intro p d e h
    simp only [split_pdf, h]
  · intro p o a e h
    simp only [rotate_pdf, h]

/-- Witness for C3, at a nonexistent input path for each operation. -/
theorem operations_wrap_validation_witness :
    (merge_pdfs demoFS ["ghost.pdf"] "o.pdf").1 =
      .error ⟨"Validation failed: File not found: ghost.pdf"⟩ ∧
    (convert_images_to_pdf demoFS ["ghost.png"] "o.pdf").1 =
      .error ⟨"Validation failed: File not found: ghost.png"⟩ ∧
    (split_pdf demoFS "ghost.pdf" "out").1 =
      .error ⟨"Validation failed: File not found: ghost.pdf"⟩ ∧
    (rotate_pdf demoFS "ghost.pdf" "o.pdf" 90).1 =
      .error ⟨"Validation failed: File not found: ghost.pdf"⟩ :=
  ⟨(operations_wrap_validation demoFS).1 ["ghost.pdf"] "o.pdf" ⟨"File not found: ghost.pdf"⟩ rfl,
   (operations_wrap_validation demoFS).2.1 ["ghost.png"] "o.pdf" ⟨"File not found: ghost.png"⟩ rfl,
   (operations_wrap_validation demoFS).2.2.1 "ghost.pdf" "out" ⟨"File not found: ghost.pdf"⟩ rfl,
   (operations_wrap_validation demoFS).2.2.2 "ghost.pdf" "o.pdf" 90
     ⟨"File not found: ghost.pdf"⟩ rfl⟩

/-- The rotation loop is a map: each page gets the same angle added, in the
original order. -/
theorem rotatePages_eq_map (a : Int) :
    ∀ l : List Page, rotatePages l a = l.map (fun pg => { pg with rotation := pg.rotation + a }) := by
  intro l
  induction l with
  | nil => rfl
  | cons pg rest ih => simp [rotatePages, ih]

/-- Claim C4: for a valid input PDF and any integer angle (negative and
non-multiple-of-90 included), rotate succeeds, writes the document obtained
by adding the angle to every page's rotation, preserves the original page
order and identity at every index, and keeps the page count. -/
theorem rotate_pdf_spec (fs : FS) (p out : String) (angle : Int)
    (hv : validate_pdf fs p = .ok true) :
    (rotate_pdf fs p out angle).1 = .ok (pyPathNorm out) ∧
    (rotate_pdf fs p out angle).2 =
      [Eff.writePdf (pyPathNorm out)
        ((pagesOf fs (pyPathNorm p)).map (fun pg => { pg with rotation := pg.rotation + angle }))] ∧
    ((pagesOf fs (pyPathNorm p)).map
        (fun pg => { pg with rotation := pg.rotation + angle })).length =
      (pagesOf fs (pyPathNorm p)).length ∧
    (∀ k : Nat,
      (((pagesOf fs (pyPathNorm p)).map
          (fun pg => { pg with rotation := pg.rotation + angle }))[k]?).map Page.pid =
        ((pagesOf fs (pyPathNorm p))[k]?).map Page.pid) := by
  refine ⟨?_, ?_, ?_, ?_⟩
  · simp only [rotate_pdf, hv]
  · simp only [rotate_pdf, hv, rotatePages_eq_map]
  · exact List.length_map _ _
  · intro k
    cases h : (pagesOf fs (pyPathNorm p))[k]? with
    | none => simp [List.getElem?_map, h]
    | some pg => simp [List.getElem?_map, h]

/-- Witness for C4, rotating a two-page PDF by 45 degrees. -/
theorem rotate_pdf_spec_witness :
    (rotate_pdf demoFS "a.pdf" "r.pdf" 45).1 = .ok "r.pdf" ∧
    (rotate_pdf demoFS "a.pdf" "r.pdf" 45).2 =
      [Eff.writePdf "r.pdf" [⟨0, 45⟩, ⟨1, 45⟩]] :=
  ⟨(rotate_pdf_spec demoFS "a.pdf" "r.pdf" 45 rfl).1,
   (rotate_pdf_spec demoFS "a.pdf" "r.pdf" 45 rfl).2.1⟩

/-- The split loop produces one output path per page. -/
theorem splitNames_length (b : List Char) (d : String) :
    ∀ (l : List Page) (i : Nat), (splitNames b d i l).length = l.length := by
  intro l
  induction l with
  | nil => intro i; rfl
  | cons pg rest ih => intro i; simp [splitNames, ih]

/-- The `k`-th output path of the split loop started at index `i` is the
file for page number `i + k + 1`. -/
theorem splitNames_getElem (b : List Char) (d : String) :
    ∀ (l : List Page) (i k : Nat), k < l.length →
      (splitNames b d i l)[k]? = some (splitName b d (i + k + 1)) := by
  intro l
  induction l with
  | nil => intro i k hk; exact absurd hk (Nat.not_lt_zero k)
  | cons pg rest ih =>
      intro i k hk
      cases k with
      | zero => simp [splitNames]
      | succ k' =>
          have hrec := ih (i + 1) k' (by simpa using hk)
          have harith : i + 1 + k' + 1 = i + (k' + 1) + 1 := by omega
          rw [harith] at hrec
          simp [splitNames, hrec]

/-- Claim C5: for a valid N-page input, split returns exactly N output
paths, the k-th (0-based) being `output_dir/{stem}_page_{k+1}.pdf`, where
stem is the input basename without extension; a 0-page input yields the
empty list without error. -/
theorem split_pdf_spec (fs : FS) (p d : String) (hv : validate_pdf fs p = .ok true) :
    (∃ outs, (split_pdf fs p d).1 = .ok outs) ∧
    (∀ outs, (split_pdf fs p d).1 = .ok outs →
      outs.length = (pagesOf fs (pyPathNorm p)).length ∧
      (∀ k, k < (pagesOf fs (pyPathNorm p)).length →
        outs[k]? = some (pyJoin (pyPathNorm d)
          (String.mk (pyStem (pyName (pyPathNorm p))) ++ "_page_" ++ toString (k + 1) ++
            ".pdf"))) ∧
      (pagesOf fs (pyPathNorm p) = [] → outs = [])) := by
  have hval : (split_pdf fs p d).1 =
      .ok (splitNames (pyStem (pyName (pyPathNorm p))) (pyPathNorm d) 0
        (pagesOf fs (pyPathNorm p))) := by
    simp only [split_pdf, hv]
  refine ⟨⟨_, hval⟩, ?_⟩
  intro outs houts
  rw [hval] at houts
  have houts' : outs = splitNames (pyStem (pyName (pyPathNorm p))) (pyPathNorm d) 0
      (pagesOf fs (pyPathNorm p)) := (Except.ok.inj houts).symm
  subst houts'
  refine ⟨splitNames_length _ _ _ 0, ?_, ?_⟩
  · intro k hk
    have := splitNames_getElem (pyStem (pyName (pyPathNorm p))) (pyPathNorm d)
      (pagesOf fs (pyPathNorm p)) 0 k hk
    simpa [splitName, Nat.zero_add] using this
  · intro hnil
    rw [hnil]
    rfl

/-- Witness for C5: splitting the two-page `a.pdf` into `out` gives the two
expected paths in order. -/
theorem split_pdf_spec_witness :
    (split_pdf demoFS "a.pdf" "out").1 = .ok ["out/a_page_1.pdf", "out/a_page_2.pdf"] ∧
    ["out/a_page_1.pdf", "out/a_page_2.pdf"].length =
      (pagesOf demoFS (pyPathNorm "a.pdf")).length ∧
    ["out/a_page_1.pdf", "out/a_page_2.pdf"][1]? = some (pyJoin (pyPathNorm "out")
      (String.mk (pyStem (pyName (pyPathNorm "a.pdf"))) ++ "_page_" ++ toString 2 ++ ".pdf")) := by
  have h := (split_pdf_spec demoFS "a.pdf" "out" rfl).2
    ["out/a_page_1.pdf", "out/a_page_2.pdf"] rfl
  exact ⟨rfl, h.1, h.2.1 1 (by decide)⟩

/-- Claim C6: merging the empty list succeeds (writing an empty merged
document at the output path), while converting the empty list raises
"No valid images provided."; with one or more validated images, convert
succeeds instead of raising that error. -/
theorem empty_input_spec (fs : FS) (out : String) :
    (merge_pdfs fs [] out).1 = .ok (pyPathNorm out) ∧
    (merge_pdfs fs [] out).2 =
      [Eff.mkdirParents (pyParent (pyPathNorm out)), Eff.writePdf (pyPathNorm out) []] ∧
    (convert_images_to_pdf fs [] out).1 = .error ⟨"No valid images provided."⟩ ∧
    (∀ (ps v : List String), validate_paths fs ps "image" = .ok v → v ≠ [] →
      (convert_images_to_pdf fs ps out).1 = .ok (pyPathNorm out)) := by
  refine ⟨rfl, rfl, rfl, ?_⟩
  intro ps v h hv
  simp only [convert_images_to_pdf, h, if_neg hv]

/-- Witness for C6: empty merge succeeds, empty convert raises, one-image
convert succeeds. -/
theorem empty_input_spec_witness :
    (merge_pdfs demoFS [] "o.pdf").1 = .ok "o.pdf" ∧
    (convert_images_to_pdf demoFS [] "o.pdf").1 = .error ⟨"No valid images provided."⟩ ∧
    (convert_images_to_pdf demoFS ["img.png"] "o.pdf").1 = .ok "o.pdf" :=
  ⟨(empty_input_spec demoFS "o.pdf").1,
   (empty_input_spec demoFS "o.pdf").2.2.1,
   (empty_input_spec demoFS "o.pdf").2.2.2 ["img.png"] ["img.png"] rfl
     (fun h => nomatch h)⟩

/-- Every effect the split loop emits is a file write. -/
theorem splitWrites_shape (b : List Char) (d : String) :
    ∀ (l : List Page) (i : Nat), ∀ w ∈ splitWrites b d i l, ∃ q doc, w = Eff.writePdf q doc := by
  intro l
  induction l with
  | nil => intro i w hw; exact absurd hw (List.not_mem_nil w)
  | cons pg rest ih =>
      intro i w hw
      rcases List.mem_cons.mp hw with h | h
      · exact ⟨_, _, h⟩
      · exact ih (i + 1) w h

/-- Claim C8: merge and convert create the output's parent directory before
the single write; split creates the output directory before its per-page
writes; rotate performs no directory creation at all. -/
theorem output_dir_creation (fs : FS) :
    (∀ (ps : List String) (out : String) (v : List String),
        validate_paths fs ps "pdf" = .ok v →
        (merge_pdfs fs ps out).2 =
          [Eff.mkdirParents (pyParent (pyPathNorm out)),
           Eff.writePdf (pyPathNorm out) ((v.map (fun q => pagesOf fs q)).flatten)]) ∧
    (∀ (ps : List String) (out : String) (v : List String),
        validate_paths fs ps "image" = .ok v → v ≠ [] →
        (convert_images_to_pdf fs ps out).2 =
          [Eff.mkdirParents (pyParent (pyPathNorm out)),
           Eff.writeImagesPdf (pyPathNorm out) v]) ∧
    (∀ (p d : String), validate_pdf fs p = .ok true →
        ∃ ws : List Eff, (split_pdf fs p d).2 = Eff.mkdirParents (pyPathNorm d) :: ws ∧
          ∀ w ∈ ws, ∃ q doc, w = Eff.writePdf q doc) ∧
    (∀ (p o : String) (a : Int) (dir : String),
        Eff.mkdirParents dir ∉ (rotate_pdf fs p o a).2) := by
  refine ⟨?_, ?_, ?_, ?_⟩
  · intro ps out v h
    simp only [merge_pdfs, h]
  · intro ps out v h hv
    simp only [convert_images_to_pdf, h, if_neg hv]
  · intro p d hv
    refine ⟨splitWrites (pyStem (pyName (pyPathNorm p))) (pyPathNorm d) 0
        (pagesOf fs (pyPathNorm p)), ?_, splitWrites_shape _ _ _ 0⟩
    simp only [split_pdf, hv]
  · intro p o a dir
    cases hv : validate_pdf fs p with
    | error e => simp [rotate_pdf, hv]
    | ok b => simp [rotate_pdf, hv]

/-- Witness for C8 at concrete inputs: merge and convert traces start with
the parent-directory creation, split's with the output directory, and the
rotate trace contains no directory creation. -/
theorem output_dir_creation_witness :
    (merge_pdfs demoFS ["a.pdf"] "o/out.pdf").2 =
      [Eff.mkdirParents "o", Eff.writePdf "o/out.pdf" [⟨0, 0⟩, ⟨1, 0⟩]] ∧
    (convert_images_to_pdf demoFS ["img.png"] "o/out.pdf").2 =
      [Eff.mkdirParents "o", Eff.writeImagesPdf "o/out.pdf" ["img.png"]] ∧
    (∃ ws : List Eff, (split_pdf demoFS "a.pdf" "out").2 = Eff.mkdirParents "out" :: ws ∧
      ∀ w ∈ ws, ∃ q doc, w = Eff.writePdf q doc) ∧
    Eff.mkdirParents "o" ∉ (rotate_pdf demoFS "a.pdf" "o/out.pdf" 90).2 :=
  ⟨(output_dir_creation demoFS).1 ["a.pdf"] "o/out.pdf" ["a.pdf"] rfl,
   (output_dir_creation demoFS).2.1 ["img.png"] "o/out.pdf" ["img.png"] rfl
     (fun h => nomatch h),
   (output_dir_creation demoFS).2.2.1 "a.pdf" "out" rfl,
   (output_dir_creation demoFS).2.2.2 "a.pdf" "o/out.pdf" 90 "o"⟩

/-- Witness for C10 at a concrete filesystem and path. -/
theorem validators_never_return_false_witness :
    (validate_file demoFS "a.pdf" = .ok true ∨ ∃ e, validate_file demoFS "a.pdf" = .error e) ∧
    (validate_pdf demoFS "a.pdf" = .ok true ∨ ∃ e, validate_pdf demoFS "a.pdf" = .error e) ∧
    (validate_image demoFS "a.pdf" = .ok true ∨ ∃ e, validate_image demoFS "a.pdf" = .error e) :=
  validators_never_return_false demoFS "a.pdf"
